import Mathlib

/-!
Verification development for the AKS cluster rebalancer repository.

Two subsystems are embedded shallowly from the Python sources:
* the scaling decision engine (`src/scaling_metrics.py`, `src/aks_integration.py`,
  `src/config.py`, `src/utils.py`);
* the cluster rebalancer simulation (`src/main.py`).

Python floats are modelled as rationals (`ℚ`); the algorithms under study only
ever combine the inputs with `+ - * / min max` and comparisons, so the
rational model reproduces the branch structure exactly.  Python dictionaries
that the code iterates over are modelled as insertion-ordered association
lists.
-/

namespace Rebalancer

/-! ## Scaling decision engine (`src/scaling_metrics.py`) -/

/-- One entry of `ScalingMetrics.metric_history`
(`update_metrics`, scaling_metrics.py lines 43-48). -/
structure MetricSample where
  timestamp : ℚ
  cpu : ℚ
  memory : ℚ
  response_time : ℚ
  deriving DecidableEq, Repr

/-- The configuration attributes of `config.Config` consulted by the scaling
engine, with their defaults from `src/config.py`. -/
structure ScalingConfig where
  MIN_CHANGE_PERIOD : ℚ
  STABILIZATION_WINDOW : ℚ
  RESPONSE_TIME_THRESHOLD : ℚ
  MAX_RESPONSE_TIME : ℚ
  CPU_SCALING_THRESHOLD : ℚ
  MEMORY_SCALING_THRESHOLD : ℚ
  MIN_REPLICAS : ℤ
  MAX_REPLICAS : ℤ
  deriving DecidableEq, Repr

/-- Defaults from `src/config.py` (lines 22-37). -/
def defaultScalingConfig : ScalingConfig :=
  { MIN_CHANGE_PERIOD := 120
    STABILIZATION_WINDOW := 60
    RESPONSE_TIME_THRESHOLD := 1
    MAX_RESPONSE_TIME := 2
    CPU_SCALING_THRESHOLD := 70
    MEMORY_SCALING_THRESHOLD := 80
    MIN_REPLICAS := 1
    MAX_REPLICAS := 10 }

/-- The mutable state of a `ScalingMetrics` object
(scaling_metrics.py `__init__`, lines 17-20). -/
structure ScalingState where
  config : ScalingConfig
  last_scale_time : ℚ
  metric_history : List MetricSample
  deriving DecidableEq, Repr

/-- `ScalingMetrics.update_metrics` (scaling_metrics.py lines 35-57).
`response_time` is the value recorded in the sample: either the caller's
argument or, when the caller passes `None`, the output of
`_calculate_simulated_response_time` (whose `pods ** 0.7` power is
irrational and is left as this parameter).  `current_pods` only feeds a
Prometheus gauge, not the retained state. -/
def update_metrics (now cpu_usage memory_usage : ℚ) (current_pods : ℤ)
    (response_time : ℚ) (s : ScalingState) : ScalingState :=
  let _ := current_pods
  let sample : MetricSample :=
    { timestamp := now, cpu := cpu_usage, memory := memory_usage,
      response_time := response_time }
  let kept := (s.metric_history ++ [sample]).filter
    (fun m => now - s.config.STABILIZATION_WINDOW < m.timestamp)
  { s with metric_history := kept }

/-- Mean of the `cpu` field over `metric_history`
(scaling_metrics.py line 105). -/
def avg_cpu (s : ScalingState) : ℚ :=
  (s.metric_history.map (·.cpu)).sum / s.metric_history.length

/-- Mean of the `memory` field over `metric_history`
(scaling_metrics.py line 106). -/
def avg_memory (s : ScalingState) : ℚ :=
  (s.metric_history.map (·.memory)).sum / s.metric_history.length

/-- Mean of the `response_time` field over `metric_history`
(scaling_metrics.py line 107). -/
def avg_response (s : ScalingState) : ℚ :=
  (s.metric_history.map (·.response_time)).sum / s.metric_history.length

/-- `ScalingMetrics.should_scale_up` (scaling_metrics.py lines 89-133).
Returns the decision together with the updated object state (the Python
method mutates `self.last_scale_time` on every `True` return). -/
def should_scale_up (now : ℚ) (s : ScalingState) : Bool × ScalingState :=
  if now - s.last_scale_time < s.config.MIN_CHANGE_PERIOD then
    (false, s)
  else if s.metric_history.isEmpty then
    (false, s)
  else if s.config.MAX_RESPONSE_TIME < avg_response s then
    (true, { s with last_scale_time := now })
  else if s.config.RESPONSE_TIME_THRESHOLD < avg_response s then
    (true, { s with last_scale_time := now })
  else if s.config.CPU_SCALING_THRESHOLD < avg_cpu s
       ∨ s.config.MEMORY_SCALING_THRESHOLD < avg_memory s then
    (true, { s with last_scale_time := now })
  else
    (false, s)

/-- The scale decision `AKSManager.auto_scale_node_pool` arrives at
(aks_integration.py lines 126-135). -/
inductive ScaleAction where
  | scaleUp (newCount : ℤ)
  | scaleDown (newCount : ℤ)
  | noop
  deriving DecidableEq, Repr

/-- `AKSManager.auto_scale_node_pool` (aks_integration.py lines 105-140).
`cpu_usage`, `memory_usage` and `current_pods` stand for the Prometheus
query results; `response_time` is the derived value recorded by
`update_metrics` (see there).  The external `scale_node_pool` resize call
is out of scope; we return the decision it would be given. -/
def auto_scale_node_pool (now cpu_usage memory_usage : ℚ) (current_pods : ℤ)
    (response_time : ℚ) (s : ScalingState) : ScaleAction × ScalingState :=
  let s1 := update_metrics now cpu_usage memory_usage current_pods response_time s
  let r := should_scale_up now s1
  if r.1 ∧ current_pods < s.config.MAX_REPLICAS then
    (.scaleUp (min (current_pods + 1) s.config.MAX_REPLICAS), r.2)
  else if s.config.MIN_REPLICAS < current_pods
       ∧ cpu_usage < s.config.CPU_SCALING_THRESHOLD * (7/10)
       ∧ memory_usage < s.config.MEMORY_SCALING_THRESHOLD * (7/10) then
    (.scaleDown (max (current_pods - 1) s.config.MIN_REPLICAS), r.2)
  else
    (.noop, r.2)

/-! ## Cluster rebalancer simulation (`src/main.py`)

A pod's resource-request strings are kept in parsed form: `cpuVal` is the
numeric literal of the cpu request and `cpuMillis` records whether the
string carried the `m` (millicores) suffix; `memGb` is the numeric part of
the `...Gi` memory string.  The two different cpu parsers of main.py
(conditional division in `_update_simulated_node_usage`, unconditional
division in `simulate_spot_node_interruption`) become two functions below. -/

/-- A simulated pod (main.py `_initialize_regular_node_pods`, lines 131-143).
`criticalLabel` is the value of the `critical` label if present. -/
structure Pod where
  name : String
  pod_namespace : String
  cpuVal : ℚ
  cpuMillis : Bool
  memGb : ℚ
  criticalLabel : Option String
  creation_timestamp : ℚ
  deriving DecidableEq, Repr

/-- A simulated node's record (main.py lines 96-118). -/
structure NodeInfo where
  is_spot : Bool
  allocCpu : ℚ
  allocMemGb : ℚ
  current_cpu_usage : ℚ
  current_mem_usage_gb : ℚ
  pods : List Pod
  deriving DecidableEq, Repr

/-- `self.simulated_nodes`: an insertion-ordered dict from node name to node
record. -/
abbrev ClusterState := List (String × NodeInfo)

/-- Cpu request in cores as parsed by `_update_simulated_node_usage` and
`_calculate_pod_priority` (main.py lines 157-159): the value is divided by
1000 only when the request string has the `m` suffix. -/
def cpuRequestCores (p : Pod) : ℚ :=
  if p.cpuMillis then p.cpuVal / 1000 else p.cpuVal

/-- Cpu request as parsed inside `simulate_spot_node_interruption`
(main.py lines 422 and 437): `float(cpu.replace('m', '')) / 1000`,
dividing by 1000 whether or not the string had the `m` suffix. -/
def cpuRequestInterruption (p : Pod) : ℚ :=
  p.cpuVal / 1000

/-- Sum of the cpu requests of a pod list, cores parsing. -/
def podsCpuSum (pods : List Pod) : ℚ :=
  (pods.map cpuRequestCores).sum

/-- Sum of the memory requests (Gi) of a pod list. -/
def podsMemSum (pods : List Pod) : ℚ :=
  (pods.map (·.memGb)).sum

/-- `_update_simulated_node_usage` on one node record (main.py lines
147-163): recompute both usage counters from the resident pods. -/
def updateNodeUsage (n : NodeInfo) : NodeInfo :=
  { n with current_cpu_usage := podsCpuSum n.pods
           current_mem_usage_gb := podsMemSum n.pods }

/-- Apply `f` to the (first) node of the given name, as a dict update. -/
def modifyNode (nodeName : String) (f : NodeInfo → NodeInfo) :
    ClusterState → ClusterState
  | [] => []
  | nv :: rest =>
    if nv.1 = nodeName then (nv.1, f nv.2) :: rest
    else nv :: modifyNode nodeName f rest

/-- `name in self.simulated_nodes`. -/
def containsNode (nodeName : String) (s : ClusterState) : Bool :=
  s.any (·.1 = nodeName)

/-- `self.simulated_nodes.get(name)`. -/
def lookupNode (nodeName : String) : ClusterState → Option NodeInfo
  | [] => none
  | nv :: rest => if nv.1 = nodeName then some nv.2 else lookupNode nodeName rest

/-- The usage-refresh loop of `get_node_metrics` (main.py lines 171-173):
`_update_simulated_node_usage` on every node. -/
def refreshAllUsage (s : ClusterState) : ClusterState :=
  s.map (fun nv => (nv.1, updateNodeUsage nv.2))

/-- `find_pods_for_rebalance` in simulation mode (main.py lines 215-222):
the non-critical pods of node `aks-regular-1` (label `critical` equal to
the string `'false'`). -/
def find_pods_for_rebalance (s : ClusterState) : List Pod :=
  match lookupNode "aks-regular-1" s with
  | none => []
  | some info => info.pods.filter (fun p => p.criticalLabel = some "false")

/-- Module-level `safe_evict_pod` of main.py (lines 49-57): eviction is
denied exactly for pods whose `critical` label is the string `'true'`. -/
def main_safe_evict_pod (pod_labels_critical : Option String) : Bool :=
  if pod_labels_critical = some "true" then false else true

/-- `_calculate_pod_priority` (main.py lines 240-267). -/
def calculate_pod_priority (now : ℚ) (p : Pod) : ℚ :=
  let base : ℚ := if p.criticalLabel.getD "false" = "false" then 5 else 0
  let age : ℚ := if 3600 < now - p.creation_timestamp then 1 else 0
  let cpu_priority_factor : ℚ := 1 - min (cpuRequestCores p / 2) 1
  let mem_priority_factor : ℚ := 1 - min (p.memGb / 4) 1
  base + age + (cpu_priority_factor + mem_priority_factor) * (1/2)

/-! Python's `list.sort(key=..., reverse=True)` and
`sorted(..., key=..., reverse=True)` are stable descending sorts: entries
keep their original relative order when their keys are equal.  Both
`_filter_pods` and `_select_target_nodes` sort `(payload, score)` pairs this
way; we model it with a stable insertion sort on the score component. -/

/-- Insert into a descending-by-score list, after any earlier entry whose
score is at least as large (stability). -/
def insertScoreDesc {α : Type} (x : α × ℚ) : List (α × ℚ) → List (α × ℚ)
  | [] => [x]
  | y :: ys => if y.2 ≤ x.2 then x :: y :: ys else y :: insertScoreDesc x ys

/-- Stable descending sort by score, modelling Python's
`sort(key=lambda t: t[1], reverse=True)`. -/
def sortScoreDesc {α : Type} (l : List (α × ℚ)) : List (α × ℚ) :=
  l.foldr insertScoreDesc []

/-- `_filter_pods` (main.py lines 269-287): drop critical pods, pair the
rest with their priority, stable-sort descending, keep the first
`max_pods_per_cycle` pods.  `node_metrics` is accepted but unused by the
source body. -/
def filter_pods (now : ℚ) (max_pods_per_cycle : ℕ) (pods : List Pod) :
    List Pod :=
  if pods.isEmpty then []
  else
    let prioritized := pods.foldr
      (fun p acc =>
        if p.criticalLabel = some "true" then acc
        else (p, calculate_pod_priority now p) :: acc) []
    ((sortScoreDesc prioritized).take max_pods_per_cycle).map (·.1)

/-- The inline destination score of `_select_target_nodes` (main.py lines
298-308): utilization factor applied to the base capacity score of the
module-level `calculate_node_score` (main.py lines 40-46). -/
def targetNodeScore (info : NodeInfo) : ℚ :=
  let cpu_utilization :=
    if 0 < info.allocCpu then info.current_cpu_usage / info.allocCpu else 1
  let mem_utilization :=
    if 0 < info.allocMemGb then info.current_mem_usage_gb / info.allocMemGb
    else 1
  let utilization_factor := ((1 - cpu_utilization) + (1 - mem_utilization)) / 2
  let base_capacity_score := info.allocCpu * (7/10) + info.allocMemGb * (3/10)
  base_capacity_score * (1 + utilization_factor * 2)

/-- `_select_target_nodes` (main.py lines 289-312): score every Spot node
and return the `(name, score)` list sorted descending by score. -/
def select_target_nodes (node_metrics : ClusterState) : List (String × ℚ) :=
  let scored_nodes := node_metrics.foldr
    (fun nv acc =>
      if nv.2.is_spot then (nv.1, targetNodeScore nv.2) :: acc else acc) []
  sortScoreDesc scored_nodes

/-- The pod-removal scan of `_execute_migrations` (main.py lines 346-355):
find the first node holding a pod of the given name, drop every pod of that
name from it and refresh its usage; `none` when no node holds such a pod. -/
def removePodByName (podName : String) : ClusterState → Option ClusterState
  | [] => none
  | nv :: rest =>
    if nv.2.pods.any (·.name = podName) then
      some ((nv.1, updateNodeUsage
        { nv.2 with pods := nv.2.pods.filter (·.name ≠ podName) }) :: rest)
    else
      (removePodByName podName rest).map (nv :: ·)

/-- The per-target append of `_execute_migrations` (main.py lines 361-366):
append the pod to the destination node and refresh its usage; a missing
destination leaves the state unchanged (logged error in the source). -/
def appendPodToNode (nodeName : String) (p : Pod) (s : ClusterState) :
    ClusterState :=
  if containsNode nodeName s then
    modifyNode nodeName
      (fun info => updateNodeUsage { info with pods := info.pods ++ [p] }) s
  else s

/-- The migration loop of `_execute_migrations` (main.py lines 325-366),
with the round-robin index threaded explicitly.  The index advances for
every processed pod, even ones later skipped. -/
def executeMigrationsGo (target_nodes : List (String × ℚ)) :
    List Pod → ℕ → ClusterState → ClusterState
  | [], _, s => s
  | p :: rest, idx, s =>
    let target_node_name :=
      (target_nodes.getD (idx % target_nodes.length) ("", 0)).1
    if main_safe_evict_pod p.criticalLabel = false then
      executeMigrationsGo target_nodes rest (idx + 1) s
    else
      match removePodByName p.name s with
      | none => executeMigrationsGo target_nodes rest (idx + 1) s
      | some s' =>
        executeMigrationsGo target_nodes rest (idx + 1)
          (appendPodToNode target_node_name p s')

/-- `_execute_migrations` in simulation mode (main.py lines 314-366). -/
def execute_migrations (pods : List Pod) (target_nodes : List (String × ℚ))
    (s : ClusterState) : ClusterState :=
  if target_nodes.isEmpty then s
  else executeMigrationsGo target_nodes pods 0 s

/-- The rebalancer object state relevant to `rebalance_cluster`:
`self.simulated_nodes` and `self.last_rebalance_time`
(`max_pods_per_cycle` is fixed to 10 and `REBALANCE_INTERVAL_SECONDS`
to 30 by `__init__`). -/
structure RebalancerState where
  nodes : ClusterState
  last_rebalance_time : ℚ
  deriving DecidableEq

/-- `rebalance_cluster` (main.py lines 458-509): interval guard, usage
refresh (`get_node_metrics`), candidate search, filtering, target
selection, conditional migration, timestamp update, and the final
`get_node_metrics` refresh. -/
def rebalance_cluster (now : ℚ) (s : RebalancerState) : RebalancerState :=
  if now - s.last_rebalance_time < 30 then s
  else
    let node_metrics := refreshAllUsage s.nodes
    let pods_to_move := find_pods_for_rebalance node_metrics
    let filtered_pods := filter_pods now 10 pods_to_move
    let target_nodes := select_target_nodes node_metrics
    let nodes' :=
      if filtered_pods.isEmpty || target_nodes.isEmpty then node_metrics
      else execute_migrations filtered_pods target_nodes node_metrics
    { nodes := refreshAllUsage nodes', last_rebalance_time := now }

/-- The eligibility scan of `simulate_spot_node_interruption` (main.py
lines 419-427): remaining Spot nodes whose committed usage plus the pod's
request (cpu parsed by the `/1000` rule of lines 422-423) fits the
allocatable capacity on both resources. -/
def eligibleSpotNodes (remaining : List String) (p : Pod)
    (s : ClusterState) : List String :=
  remaining.filter (fun nodeName =>
    match lookupNode nodeName s with
    | some info =>
      decide (info.current_cpu_usage + cpuRequestInterruption p ≤ info.allocCpu)
        && decide (info.current_mem_usage_gb + p.memGb ≤ info.allocMemGb)
    | none => false)

/-- One orphaned pod's reassignment inside `simulate_spot_node_interruption`
(main.py lines 414-454).  `choose` stands for `random.choice`; it is only
ever applied to a non-empty eligible list. -/
def reassignOrphanPod (choose : List String → String)
    (remaining : List String) (s : ClusterState) (p : Pod) : ClusterState :=
  let eligible := eligibleSpotNodes remaining p s
  if eligible.isEmpty then
    match lookupNode "aks-regular-1" s with
    | some fb =>
      if fb.is_spot then s
      else if fb.current_cpu_usage + cpuRequestInterruption p ≤ fb.allocCpu
           ∧ fb.current_mem_usage_gb + p.memGb ≤ fb.allocMemGb then
        appendPodToNode "aks-regular-1" p s
      else s
    | none => s
  else
    appendPodToNode (choose eligible) p s

/-- `simulate_spot_node_interruption` (main.py lines 389-456): delete the
named Spot node and reassign each of its pods in order. -/
def simulate_spot_node_interruption (choose : List String → String)
    (nodeName : String) (s : ClusterState) : ClusterState :=
  match lookupNode nodeName s with
  | none => s
  | some node =>
    if node.is_spot = false then s
    else
      let interrupted_pods := node.pods
      let s1 := s.filter (fun nv => nv.1 ≠ nodeName)
      let remaining_spot := (s1.filter (fun nv => nv.2.is_spot)).map (·.1)
      interrupted_pods.foldl (reassignOrphanPod choose remaining_spot) s1

/-! ## Helper lemmas: scaling decision engine -/

/-- `update_metrics` never touches the cooldown timestamp. -/
theorem update_metrics_last_scale_time (now cpu mem : ℚ) (pods : ℤ) (rt : ℚ)
    (s : ScalingState) :
    (update_metrics now cpu mem pods rt s).last_scale_time =
      s.last_scale_time := rfl

/-- `update_metrics` never touches the configuration. -/
theorem update_metrics_config (now cpu mem : ℚ) (pods : ℤ) (rt : ℚ)
    (s : ScalingState) :
    (update_metrics now cpu mem pods rt s).config = s.config := rfl

/-- A `True` return of `should_scale_up` stamps `last_scale_time` with the
current time. -/
theorem should_scale_up_true_last (now : ℚ) (s : ScalingState)
    (h : (should_scale_up now s).1 = true) :
    (should_scale_up now s).2.last_scale_time = now := by
  unfold should_scale_up at h ⊢
  split_ifs at h ⊢ <;> simp_all

/-- A `False` return of `should_scale_up` leaves the whole state alone. -/
theorem should_scale_up_false_state (now : ℚ) (s : ScalingState)
    (h : (should_scale_up now s).1 = false) :
    (should_scale_up now s).2 = s := by
  unfold should_scale_up at h ⊢
  split_ifs at h ⊢ <;> simp_all

/-! ## Claims C9, C8, C6, C5 -/

/-- C9: after every `update_metrics` call at time `now`, the retained
history holds exactly those samples — among the previously retained ones
plus the newly appended one — whose timestamp is strictly greater than
`now - STABILIZATION_WINDOW`; in particular no retained sample has
timestamp at or below that bound. -/
theorem update_metrics_window_invariant (now cpu mem : ℚ) (pods : ℤ)
    (rt : ℚ) (s : ScalingState) :
    (∀ m : MetricSample,
        m ∈ (update_metrics now cpu mem pods rt s).metric_history ↔
          ((m ∈ s.metric_history ∨
              m = { timestamp := now, cpu := cpu, memory := mem,
                    response_time := rt }) ∧
            now - s.config.STABILIZATION_WINDOW < m.timestamp)) ∧
    (∀ m ∈ (update_metrics now cpu mem pods rt s).metric_history,
        ¬ m.timestamp ≤ now - s.config.STABILIZATION_WINDOW) := by
  constructor
  · intro m
    simp only [update_metrics, List.mem_filter, List.mem_append,
      List.mem_singleton, decide_eq_true_eq]
  · intro m hm
    rw [not_le]
    have := (List.mem_filter.mp hm).2
    simpa using this

/-- C8: with the cooldown elapsed and a non-empty window,
`should_scale_up` returns `True` exactly when the window's mean response
time exceeds `MAX_RESPONSE_TIME`, or else exceeds
`RESPONSE_TIME_THRESHOLD`, or else mean CPU exceeds
`CPU_SCALING_THRESHOLD` or mean memory exceeds
`MEMORY_SCALING_THRESHOLD`; otherwise it returns `False`. -/
theorem should_scale_up_decision (now : ℚ) (s : ScalingState)
    (hcool : ¬ (now - s.last_scale_time < s.config.MIN_CHANGE_PERIOD))
    (hne : s.metric_history ≠ []) :
    ((should_scale_up now s).1 = true ↔
      (s.config.MAX_RESPONSE_TIME < avg_response s
        ∨ s.config.RESPONSE_TIME_THRESHOLD < avg_response s
        ∨ s.config.CPU_SCALING_THRESHOLD < avg_cpu s
        ∨ s.config.MEMORY_SCALING_THRESHOLD < avg_memory s)) := by
  unfold should_scale_up
  rw [if_neg hcool, if_neg (by simpa [List.isEmpty_iff] using hne)]
  split_ifs with h1 h2 h3 <;> simp_all

/-- Concrete engine state for the C8 scenario: one sample with mean
response time 2.5 s, cooldown elapsed, default thresholds 1.0 s / 2.0 s. -/
def scaleStC8 : ScalingState :=
  { config := defaultScalingConfig
    last_scale_time := 0
    metric_history :=
      [{ timestamp := 1000, cpu := 10, memory := 10, response_time := 5/2 }] }

/-- Witness for C8: the spec's scenario — mean response time 2.5 s with
thresholds 1.0 s / 2.0 s and cooldown elapsed yields `ScaleUp`. -/
theorem should_scale_up_decision_witness :
    (¬ (1000 - scaleStC8.last_scale_time
          < scaleStC8.config.MIN_CHANGE_PERIOD)) ∧
    scaleStC8.metric_history ≠ [] ∧
    ((should_scale_up 1000 scaleStC8).1 = true ↔
      (scaleStC8.config.MAX_RESPONSE_TIME < avg_response scaleStC8
        ∨ scaleStC8.config.RESPONSE_TIME_THRESHOLD < avg_response scaleStC8
        ∨ scaleStC8.config.CPU_SCALING_THRESHOLD < avg_cpu scaleStC8
        ∨ scaleStC8.config.MEMORY_SCALING_THRESHOLD
            < avg_memory scaleStC8)) ∧
    (should_scale_up 1000 scaleStC8).1 = true :=
  ⟨by norm_num [scaleStC8, defaultScalingConfig],
   by simp [scaleStC8],
   should_scale_up_decision 1000 scaleStC8
     (by norm_num [scaleStC8, defaultScalingConfig]) (by simp [scaleStC8]),
   by norm_num [should_scale_up, scaleStC8, defaultScalingConfig,
     avg_response, avg_cpu, avg_memory]⟩

/-- C6: a `True` decision at time `t` stamps `last_scale_time := t`, and
then every decision taken at a time `t'` with `t' - t` below
`MIN_CHANGE_PERIOD` returns `False` and leaves the state untouched,
whatever the metric window holds at `t'`. -/
theorem should_scale_up_cooldown_gate (s : ScalingState) (t : ℚ)
    (h : (should_scale_up t s).1 = true) :
    (should_scale_up t s).2.last_scale_time = t ∧
    ∀ (s' : ScalingState) (t' : ℚ), s'.last_scale_time = t →
      t' - t < s'.config.MIN_CHANGE_PERIOD →
      (should_scale_up t' s').1 = false ∧ (should_scale_up t' s').2 = s' := by
  refine ⟨should_scale_up_true_last t s h, ?_⟩
  intro s' t' hlast hcool
  have hcond : t' - s'.last_scale_time < s'.config.MIN_CHANGE_PERIOD := by
    rw [hlast]; exact hcool
  unfold should_scale_up
  rw [if_pos hcond]
  exact ⟨rfl, rfl⟩

/-- Concrete engine state that scales up at time 1000 (mean response 3 s). -/
def scaleStC6 : ScalingState :=
  { config := defaultScalingConfig
    last_scale_time := 0
    metric_history :=
      [{ timestamp := 1000, cpu := 90, memory := 90, response_time := 3 }] }

/-- Engine state 50 s after the scale-up of `scaleStC6`, with fresh,
saturated metrics. -/
def scaleStC6' : ScalingState :=
  { config := defaultScalingConfig
    last_scale_time := 1000
    metric_history :=
      [{ timestamp := 1050, cpu := 99, memory := 99, response_time := 9 }] }

/-- Witness for C6: a scale-up at `t = 1000` followed by a request at
`t' = 1050 < 1000 + 120` which is denied despite saturated metrics. -/
theorem should_scale_up_cooldown_gate_witness :
    (should_scale_up 1000 scaleStC6).1 = true ∧
    (should_scale_up 1050 scaleStC6').1 = false ∧
    (should_scale_up 1050 scaleStC6').2 = scaleStC6' := by
  have h : (should_scale_up 1000 scaleStC6).1 = true := by
    norm_num [should_scale_up, scaleStC6, defaultScalingConfig,
      avg_response, avg_cpu, avg_memory]
  have h2 := (should_scale_up_cooldown_gate scaleStC6 1000 h).2 scaleStC6'
    1050 rfl (by norm_num [scaleStC6', defaultScalingConfig])
  exact ⟨h, h2.1, h2.2⟩

/-- Concrete engine state 10 s after its last scale action. -/
def scaleStC5 : ScalingState :=
  { config := defaultScalingConfig
    last_scale_time := 990
    metric_history := [] }

/-- Counterexample to C5: at time 1000 — inside the cooldown started at
990 — with low utilization (10 % CPU and memory) and 5 pods,
`auto_scale_node_pool` issues `ScaleDown` to 4 pods, yet
`last_scale_time` stays at 990 instead of being reset to the decision
time 1000. -/
theorem auto_scale_scaledown_no_reset :
    (auto_scale_node_pool 1000 10 10 5 0 scaleStC5).1 =
      ScaleAction.scaleDown 4 ∧
    ¬ ((auto_scale_node_pool 1000 10 10 5 0 scaleStC5).2.last_scale_time
        = 1000) := by
  norm_num [auto_scale_node_pool, update_metrics, should_scale_up,
    scaleStC5, defaultScalingConfig, avg_response, avg_cpu, avg_memory,
    max_def, min_def]

/-- C5 amended: the cooldown timestamp after an `auto_scale_node_pool`
decision equals the decision time exactly when the embedded
`should_scale_up` call returned `True`, and is otherwise unchanged; so
every `ScaleUp` resets it, while a `ScaleDown` leaves it alone whenever
the pod count was below `MAX_REPLICAS`. -/
theorem auto_scale_timestamp_reset (now cpu mem : ℚ) (pods : ℤ) (rt : ℚ)
    (s : ScalingState) :
    (auto_scale_node_pool now cpu mem pods rt s).2.last_scale_time =
      (if (should_scale_up now
            (update_metrics now cpu mem pods rt s)).1 = true
       then now else s.last_scale_time) := by
  have hsnd : (auto_scale_node_pool now cpu mem pods rt s).2 =
      (should_scale_up now (update_metrics now cpu mem pods rt s)).2 := by
    simp only [auto_scale_node_pool]
    split_ifs <;> rfl
  rw [hsnd]
  by_cases hr : (should_scale_up now
      (update_metrics now cpu mem pods rt s)).1 = true
  · rw [if_pos hr]
    exact should_scale_up_true_last _ _ hr
  · rw [if_neg hr]
    have hst := should_scale_up_false_state now
      (update_metrics now cpu mem pods rt s)
      (by simpa using hr)
    rw [hst, update_metrics_last_scale_time]

/-! ## `utils.safe_evict_pod` and the `Config` attribute surface (C10) -/

/-- The class attributes defined by `config.Config` (config.py lines 6-50);
attribute lookup on a `Config` instance succeeds exactly for these names. -/
def configAttrNames : List String :=
  ["KUBECONFIG", "AKS_CLUSTER_NAME", "AZURE_SUBSCRIPTION_ID",
   "SPOT_NODE_POOL", "REGULAR_NODE_POOL", "SPOT_UTILIZATION_THRESHOLD",
   "REGULAR_UTILIZATION_THRESHOLD", "MAX_SPOT_INTERRUPTION_RISK",
   "KEDA_NAMESPACE", "PROMETHEUS_URL", "SCALING_COOLDOWN", "MIN_REPLICAS",
   "MAX_REPLICAS", "CPU_SCALING_THRESHOLD", "MEMORY_SCALING_THRESHOLD",
   "ENVIRONMENT", "RESPONSE_TIME_THRESHOLD", "MAX_RESPONSE_TIME",
   "COOLDOWN_PERIOD", "STABILIZATION_WINDOW", "MIN_CHANGE_PERIOD",
   "TIME_WINDOWS", "ROLLBACK_ENABLED", "ROLLBACK_THRESHOLD_CPU",
   "ROLLBACK_CHECK_INTERVAL"]

/-- The Python exception outcome relevant to `utils.safe_evict_pod`. -/
inductive PyError where
  | attributeError (attr : String)
  deriving DecidableEq, Repr

/-- The pod metadata `utils.safe_evict_pod` reads back from
`read_namespaced_pod`: the value of the `critical` label, if any. -/
structure PodMeta where
  criticalLabel : Option String

/-- An `ApiException` raised by the Kubernetes client. -/
structure ApiException where
  status : ℕ

/-- The external Kubernetes API surface used by `utils.safe_evict_pod`.
Responses may differ between attempts, hence the attempt index. -/
structure K8sApi where
  read_namespaced_pod : String → String → ℕ → Except ApiException PodMeta
  create_namespaced_pod_eviction :
    String → String → ℕ → Except ApiException Unit

/-- The retry loop of `utils.safe_evict_pod` (utils.py lines 41-82):
read the pod, deny critical pods, evict; on a 429 `ApiException` back off
and retry, on any other status give up; `False` once attempts run out. -/
def evictionRetryLoop (api : K8sApi) (pod_name namespc : String) :
    ℕ → ℕ → Except PyError Bool
  | 0, _ => .ok false
  | fuel + 1, attempt =>
    match api.read_namespaced_pod pod_name namespc attempt with
    | .error e =>
      if e.status = 429 then
        evictionRetryLoop api pod_name namespc fuel (attempt + 1)
      else .ok false
    | .ok pod =>
      if pod.criticalLabel.getD "false" = "true" then .ok false
      else
        match api.create_namespaced_pod_eviction pod_name namespc attempt with
        | .error e =>
          if e.status = 429 then
            evictionRetryLoop api pod_name namespc fuel (attempt + 1)
          else .ok false
        | .ok _ => .ok true

/-- `utils.safe_evict_pod` (utils.py lines 19-82).  Its first statement
evaluates `Config().TEST_MODE`; attribute lookup on `Config` succeeds only
for the names in `configAttrNames`.  `test_mode_truthy` stands for the
truthiness the attribute would have were it defined. -/
def utils_safe_evict_pod (test_mode_truthy : Bool) (api : K8sApi)
    (pod_name namespc : String) (max_retries : ℕ) : Except PyError Bool :=
  if "TEST_MODE" ∈ configAttrNames then
    (if test_mode_truthy then .ok true
     else evictionRetryLoop api pod_name namespc max_retries 0)
  else .error (.attributeError "TEST_MODE")

/-- C10: for every input and every behaviour of the external Kubernetes
API, `utils.safe_evict_pod` raises `AttributeError` on `Config().TEST_MODE`
— `config.Config` defines no `TEST_MODE` attribute — before any eviction
attempt, and so never returns a value. -/
theorem utils_safe_evict_pod_raises (test_mode_truthy : Bool) (api : K8sApi)
    (pod_name namespc : String) (max_retries : ℕ) :
    utils_safe_evict_pod test_mode_truthy api pod_name namespc max_retries =
      .error (.attributeError "TEST_MODE") := by
  unfold utils_safe_evict_pod
  rw [if_neg (by decide)]

/-! ## Stable descending sort: lemmas for C7 -/

/-- Membership through `insertScoreDesc`. -/
theorem mem_insertScoreDesc {α : Type} (x a : α × ℚ) (l : List (α × ℚ)) :
    a ∈ insertScoreDesc x l ↔ a = x ∨ a ∈ l := by
  induction l with
  | nil => simp [insertScoreDesc]
  | cons y ys ih =>
    by_cases h : y.2 ≤ x.2
    · simp only [insertScoreDesc, if_pos h, List.mem_cons]
    · simp only [insertScoreDesc, if_neg h, List.mem_cons, ih]
      tauto

/-- `insertScoreDesc` preserves the descending-score ordering. -/
theorem pairwise_insertScoreDesc {α : Type} (x : α × ℚ)
    (l : List (α × ℚ)) (h : l.Pairwise (fun a b => b.2 ≤ a.2)) :
    (insertScoreDesc x l).Pairwise (fun a b => b.2 ≤ a.2) := by
  induction l with
  | nil => simp [insertScoreDesc]
  | cons y ys ih =>
    rcases List.pairwise_cons.mp h with ⟨hy, hys⟩
    by_cases hxy : y.2 ≤ x.2
    · rw [insertScoreDesc, if_pos hxy]
      refine List.pairwise_cons.mpr ⟨?_, h⟩
      intro z hz
      rcases List.mem_cons.mp hz with rfl | hz'
      · exact hxy
      · exact le_trans (hy z hz') hxy
    · rw [insertScoreDesc, if_neg hxy]
      refine List.pairwise_cons.mpr ⟨?_, ih hys⟩
      intro z hz
      rcases (mem_insertScoreDesc x z ys).mp hz with rfl | hz'
      · exact le_of_lt (lt_of_not_le hxy)
      · exact hy z hz'

/-- `sortScoreDesc` output is descending in the score component. -/
theorem sortScoreDesc_pairwise {α : Type} (l : List (α × ℚ)) :
    (sortScoreDesc l).Pairwise (fun a b => b.2 ≤ a.2) := by
  induction l with
  | nil => simp [sortScoreDesc]
  | cons x xs ih => exact pairwise_insertScoreDesc x _ ih

/-- Inserting commutes with filtering on an exact score: the entries of any
one score keep their relative order (stability, one step). -/
theorem filter_insertScoreDesc {α : Type} (x : α × ℚ) (l : List (α × ℚ))
    (q : ℚ) :
    (insertScoreDesc x l).filter (fun a => a.2 = q) =
      (x :: l).filter (fun a => a.2 = q) := by
  induction l with
  | nil => rfl
  | cons y ys ih =>
    by_cases hxy : y.2 ≤ x.2
    · rw [insertScoreDesc, if_pos hxy]
    · rw [insertScoreDesc, if_neg hxy]
      by_cases hx : x.2 = q
      · have hyq : ¬ (y.2 = q) := fun hyq => hxy (le_of_eq (hyq.trans hx.symm))
        simp [List.filter_cons, ih, hx, hyq]
      · simp only [List.filter_cons, ih]
        simp [hx]

/-- Sorting commutes with filtering on an exact score: ties appear in
insertion order (stability of `sortScoreDesc`). -/
theorem filter_sortScoreDesc {α : Type} (l : List (α × ℚ)) (q : ℚ) :
    (sortScoreDesc l).filter (fun a => a.2 = q) =
      l.filter (fun a => a.2 = q) := by
  induction l with
  | nil => rfl
  | cons x xs ih =>
    have h1 : sortScoreDesc (x :: xs) = insertScoreDesc x (sortScoreDesc xs) :=
      rfl
    rw [h1, filter_insertScoreDesc]
    simp only [List.filter_cons, ih]

/-- The scored-node accumulation loop of `_select_target_nodes` is the
spot-only filter followed by scoring. -/
theorem scored_nodes_eq_filter_map (m : ClusterState) :
    m.foldr (fun nv acc =>
        if nv.2.is_spot then (nv.1, targetNodeScore nv.2) :: acc else acc)
      [] =
      (m.filter (fun nv => nv.2.is_spot)).map
        (fun nv => (nv.1, targetNodeScore nv.2)) := by
  induction m with
  | nil => rfl
  | cons nv rest ih =>
    by_cases h : nv.2.is_spot
    · simp [List.filter_cons, h, ih]
    · simp [List.filter_cons, h, ih]

/-- The destination score as §4.1 of the spec words it:
`base = 0.7*cpu_allocatable + 0.3*mem_allocatable_GB`,
`utilization_factor = ((1 - cpu_util) + (1 - mem_util)) / 2` with
`util = current_usage / allocatable` and `util = 1.0` when the allocatable
amount is zero, and `score = base * (1 + utilization_factor * 2)`. -/
def specNodeScore (info : NodeInfo) : ℚ :=
  let cpu_util :=
    if info.allocCpu = 0 then 1 else info.current_cpu_usage / info.allocCpu
  let mem_util :=
    if info.allocMemGb = 0 then 1
    else info.current_mem_usage_gb / info.allocMemGb
  let utilization_factor := ((1 - cpu_util) + (1 - mem_util)) / 2
  ((7/10) * info.allocCpu + (3/10) * info.allocMemGb)
    * (1 + utilization_factor * 2)

/-- On nodes with non-negative allocatable amounts, the source's inline
score agrees with the spec's formula. -/
theorem targetNodeScore_eq_spec (info : NodeInfo)
    (hc : 0 ≤ info.allocCpu) (hm : 0 ≤ info.allocMemGb) :
    targetNodeScore info = specNodeScore info := by
  unfold targetNodeScore specNodeScore
  by_cases h1 : info.allocCpu = 0
  · by_cases h2 : info.allocMemGb = 0
    · simp [h1, h2]
    · have h2' : 0 < info.allocMemGb := lt_of_le_of_ne hm (Ne.symm h2)
      simp only [h1, h2, if_pos, if_neg, lt_irrefl, if_false, if_true,
        if_pos h2']
      ring
  · have h1' : 0 < info.allocCpu := lt_of_le_of_ne hc (Ne.symm h1)
    by_cases h2 : info.allocMemGb = 0
    · simp only [h1, h2, if_pos h1', if_false, if_true, lt_irrefl, if_neg]
      ring
    · have h2' : 0 < info.allocMemGb := lt_of_le_of_ne hm (Ne.symm h2)
      simp only [if_pos h1', if_pos h2', if_neg h1, if_neg h2]
      ring

/-- C7: `_select_target_nodes` scores exactly the Spot nodes — durable
nodes are excluded — with the spec's score
`(0.7*cpu_alloc + 0.3*mem_alloc_GB) * (1 + utilization_factor*2)`, and
returns them sorted descending by score with ties kept in insertion
order (a stable sort), provided allocatable amounts are non-negative. -/
theorem select_target_nodes_spec (node_metrics : ClusterState)
    (hnn : ∀ nv ∈ node_metrics, 0 ≤ nv.2.allocCpu ∧ 0 ≤ nv.2.allocMemGb) :
    select_target_nodes node_metrics =
      sortScoreDesc ((node_metrics.filter (fun nv => nv.2.is_spot)).map
        (fun nv => (nv.1, specNodeScore nv.2))) ∧
    (select_target_nodes node_metrics).Pairwise (fun a b => b.2 ≤ a.2) ∧
    ∀ q : ℚ,
      (select_target_nodes node_metrics).filter (fun a => a.2 = q) =
        ((node_metrics.filter (fun nv => nv.2.is_spot)).map
          (fun nv => (nv.1, specNodeScore nv.2))).filter
          (fun a => a.2 = q) := by
  have hmap :
      (node_metrics.filter (fun nv => nv.2.is_spot)).map
          (fun nv => (nv.1, targetNodeScore nv.2)) =
        (node_metrics.filter (fun nv => nv.2.is_spot)).map
          (fun nv => (nv.1, specNodeScore nv.2)) := by
    apply List.map_congr_left
    intro nv hnv
    have hm := List.mem_of_mem_filter hnv
    rw [targetNodeScore_eq_spec nv.2 (hnn nv hm).1 (hnn nv hm).2]
  have hsel : select_target_nodes node_metrics =
      sortScoreDesc ((node_metrics.filter (fun nv => nv.2.is_spot)).map
        (fun nv => (nv.1, specNodeScore nv.2))) := by
    unfold select_target_nodes
    rw [scored_nodes_eq_filter_map, hmap]
  refine ⟨hsel, ?_, ?_⟩
  · rw [hsel]; exact sortScoreDesc_pairwise _
  · intro q
    rw [hsel, filter_sortScoreDesc]

/-- A small concrete cluster: two Spot nodes and one durable node, all
with non-negative allocatable capacity. -/
def metricsC7 : ClusterState :=
  [("aks-spot-1",
    { is_spot := true, allocCpu := 4, allocMemGb := 16,
      current_cpu_usage := 1, current_mem_usage_gb := 2, pods := [] }),
   ("aks-spot-2",
    { is_spot := true, allocCpu := 2, allocMemGb := 8,
      current_cpu_usage := 0, current_mem_usage_gb := 0, pods := [] }),
   ("aks-regular-1",
    { is_spot := false, allocCpu := 8, allocMemGb := 32,
      current_cpu_usage := 3, current_mem_usage_gb := 6, pods := [] })]

/-- Witness for C7 at a concrete cluster with non-negative capacities. -/
theorem select_target_nodes_spec_witness :
    (∀ nv ∈ metricsC7, 0 ≤ nv.2.allocCpu ∧ 0 ≤ nv.2.allocMemGb) ∧
    (select_target_nodes metricsC7 =
      sortScoreDesc ((metricsC7.filter (fun nv => nv.2.is_spot)).map
        (fun nv => (nv.1, specNodeScore nv.2))) ∧
    (select_target_nodes metricsC7).Pairwise (fun a b => b.2 ≤ a.2) ∧
    ∀ q : ℚ,
      (select_target_nodes metricsC7).filter (fun a => a.2 = q) =
        ((metricsC7.filter (fun nv => nv.2.is_spot)).map
          (fun nv => (nv.1, specNodeScore nv.2))).filter
          (fun a => a.2 = q)) := by
  have hnn : ∀ nv ∈ metricsC7, 0 ≤ nv.2.allocCpu ∧ 0 ≤ nv.2.allocMemGb := by
    intro nv hnv
    simp only [metricsC7, List.mem_cons, List.mem_singleton,
      List.not_mem_nil, or_false] at hnv
    rcases hnv with rfl | rfl | rfl <;> exact ⟨by norm_num, by norm_num⟩
  exact ⟨hnn, select_target_nodes_spec metricsC7 hnn⟩

/-! ## Usage bookkeeping (C1) -/

/-- A node record whose usage counters match its resident pods. -/
def nodeConsistent (n : NodeInfo) : Prop :=
  n.current_cpu_usage = podsCpuSum n.pods ∧
  n.current_mem_usage_gb = podsMemSum n.pods

/-- Every node's usage counters equal the sums of its resident pods'
requests — the committed-usage bookkeeping of the simulation. -/
def usageConsistent (s : ClusterState) : Prop :=
  ∀ nv ∈ s, nodeConsistent nv.2

instance (n : NodeInfo) : Decidable (nodeConsistent n) := by
  unfold nodeConsistent; infer_instance

instance (s : ClusterState) : Decidable (usageConsistent s) := by
  unfold usageConsistent; infer_instance

/-- `_update_simulated_node_usage` establishes node consistency outright. -/
theorem nodeConsistent_updateNodeUsage (n : NodeInfo) :
    nodeConsistent (updateNodeUsage n) :=
  ⟨rfl, rfl⟩

/-- `modifyNode` keeps the bookkeeping when the modification itself
produces a consistent node. -/
theorem usageConsistent_modifyNode (nm : String) (f : NodeInfo → NodeInfo)
    (hf : ∀ info, nodeConsistent (f info)) (s : ClusterState)
    (h : usageConsistent s) : usageConsistent (modifyNode nm f s) := by
  induction s with
  | nil => exact h
  | cons nv rest ih =>
    rw [modifyNode]
    by_cases he : nv.1 = nm
    · rw [if_pos he]
      intro x hx
      rcases List.mem_cons.mp hx with rfl | hx'
      · exact hf nv.2
      · exact h x (List.mem_cons_of_mem _ hx')
    · rw [if_neg he]
      intro x hx
      rcases List.mem_cons.mp hx with rfl | hx'
      · exact h x (List.mem_cons_self _ _)
      · exact ih (fun y hy => h y (List.mem_cons_of_mem _ hy)) x hx'

/-- The removal step of `_execute_migrations` keeps the bookkeeping. -/
theorem usageConsistent_removePodByName (podName : String) :
    ∀ (s s' : ClusterState), removePodByName podName s = some s' →
      usageConsistent s → usageConsistent s' := by
  intro s
  induction s with
  | nil => intro s' h; exact absurd h (by simp [removePodByName])
  | cons nv rest ih =>
    intro s' hrem h
    rw [removePodByName] at hrem
    by_cases he : nv.2.pods.any (·.name = podName)
    · rw [if_pos he] at hrem
      rcases Option.some.inj hrem with rfl
      intro x hx
      rcases List.mem_cons.mp hx with rfl | hx'
      · exact nodeConsistent_updateNodeUsage _
      · exact h x (List.mem_cons_of_mem _ hx')
    · rw [if_neg he] at hrem
      rcases Option.map_eq_some'.mp hrem with ⟨s'', hs'', rfl⟩
      intro x hx
      rcases List.mem_cons.mp hx with rfl | hx'
      · exact h x (List.mem_cons_self _ _)
      · exact ih s'' hs''
          (fun y hy => h y (List.mem_cons_of_mem _ hy)) x hx'

/-- The append step of `_execute_migrations` keeps the bookkeeping. -/
theorem usageConsistent_appendPodToNode (nm : String) (p : Pod)
    (s : ClusterState) (h : usageConsistent s) :
    usageConsistent (appendPodToNode nm p s) := by
  unfold appendPodToNode
  by_cases hc : containsNode nm s
  · rw [if_pos hc]
    exact usageConsistent_modifyNode nm _
      (fun info => nodeConsistent_updateNodeUsage _) s h
  · rw [if_neg hc]; exact h

/-- The migration loop keeps the bookkeeping. -/
theorem usageConsistent_executeMigrationsGo
    (target_nodes : List (String × ℚ)) :
    ∀ (pods : List Pod) (idx : ℕ) (s : ClusterState),
      usageConsistent s →
      usageConsistent (executeMigrationsGo target_nodes pods idx s) := by
  intro pods
  induction pods with
  | nil => intro idx s h; exact h
  | cons p rest ih =>
    intro idx s h
    rw [executeMigrationsGo]
    by_cases hev : main_safe_evict_pod p.criticalLabel = false
    · rw [if_pos hev]; exact ih _ _ h
    · rw [if_neg hev]
      rcases hrem : removePodByName p.name s with _ | s'
      · exact ih _ _ h
      · exact ih _ _ (usageConsistent_appendPodToNode _ _ _
          (usageConsistent_removePodByName _ s s' hrem h))

/-- C1 amended: after any migration batch the bookkeeping still holds —
each node's usage counters equal the sums of its resident pods' requests
(provided they did before) — but that sum is not bounded by the node's
allocatable capacity: `_execute_migrations` performs no capacity check
and rejects a pod only through the criticality check of
`safe_evict_pod`. -/
theorem execute_migrations_bookkeeping (pods : List Pod)
    (target_nodes : List (String × ℚ)) (s : ClusterState)
    (h : usageConsistent s) :
    usageConsistent (execute_migrations pods target_nodes s) := by
  unfold execute_migrations
  by_cases he : target_nodes.isEmpty
  · rw [if_pos he]; exact h
  · rw [if_neg he]
    exact usageConsistent_executeMigrationsGo target_nodes pods 0 s h

/-- A pod requesting 2 cpu cores and 1 Gi, eligible for migration. -/
def podBigC1 : Pod :=
  { name := "app-big", pod_namespace := "default", cpuVal := 2,
    cpuMillis := false, memGb := 1, criticalLabel := some "false",
    creation_timestamp := 0 }

/-- A durable node holding `podBigC1` plus an empty Spot node with only
1 allocatable cpu core. -/
def clusterC1 : ClusterState :=
  [("aks-regular-1",
    { is_spot := false, allocCpu := 8, allocMemGb := 32,
      current_cpu_usage := 2, current_mem_usage_gb := 1,
      pods := [podBigC1] }),
   ("aks-spot-1",
    { is_spot := true, allocCpu := 1, allocMemGb := 4,
      current_cpu_usage := 0, current_mem_usage_gb := 0, pods := [] })]

/-- Counterexample to C1: `_execute_migrations` happily places a
2-core pod onto a Spot node with 1 allocatable core — the batch succeeds,
no placement is rejected, and afterwards the node's resident requests
(2 cores) exceed its allocatable capacity (1 core). -/
theorem execute_migrations_capacity_violation :
    lookupNode "aks-spot-1"
        (execute_migrations [podBigC1] [("aks-spot-1", 1)] clusterC1) =
      some { is_spot := true, allocCpu := 1, allocMemGb := 4,
             current_cpu_usage := 2, current_mem_usage_gb := 1,
             pods := [podBigC1] } ∧
    ¬ (podsCpuSum [podBigC1] ≤ (1 : ℚ)) := by
  constructor
  · norm_num [execute_migrations, executeMigrationsGo, main_safe_evict_pod,
      removePodByName, appendPodToNode, modifyNode, containsNode,
      lookupNode, updateNodeUsage, podsCpuSum, podsMemSum, cpuRequestCores,
      clusterC1, podBigC1, List.getD]
    decide
  · norm_num [podsCpuSum, cpuRequestCores, podBigC1]

/-- Witness for the amended C1 at the concrete cluster `clusterC1`. -/
theorem execute_migrations_bookkeeping_witness :
    usageConsistent clusterC1 ∧
    usageConsistent
      (execute_migrations [podBigC1] [("aks-spot-1", 1)] clusterC1) := by
  have h : usageConsistent clusterC1 := by
    intro nv hnv
    simp only [clusterC1, List.mem_cons, List.mem_singleton,
      List.not_mem_nil, or_false] at hnv
    rcases hnv with rfl | rfl <;>
      exact ⟨by norm_num [podsCpuSum, cpuRequestCores, podBigC1],
             by norm_num [podsMemSum, podBigC1]⟩
  exact ⟨h, execute_migrations_bookkeeping _ _ _ h⟩

/-! ## Rebalance cycles without destinations (C2) -/

/-- Recomputing usage is the identity on an already-consistent node. -/
theorem updateNodeUsage_eq_self (n : NodeInfo) (h : nodeConsistent n) :
    updateNodeUsage n = n := by
  cases n
  rcases h with ⟨h1, h2⟩
  simp_all [updateNodeUsage]

/-- The `get_node_metrics` refresh is the identity on a consistent
cluster. -/
theorem refreshAllUsage_eq_self (s : ClusterState)
    (h : usageConsistent s) : refreshAllUsage s = s := by
  induction s with
  | nil => rfl
  | cons nv rest ih =>
    have hrest := ih (fun y hy => h y (List.mem_cons_of_mem _ hy))
    unfold refreshAllUsage at hrest ⊢
    simp only [List.map_cons, hrest,
      updateNodeUsage_eq_self nv.2 (h nv (List.mem_cons_self _ _))]

/-- Without Spot nodes, `_select_target_nodes` returns no destination. -/
theorem select_target_nodes_no_spot (m : ClusterState)
    (h : ∀ nv ∈ m, nv.2.is_spot = false) :
    select_target_nodes m = [] := by
  unfold select_target_nodes
  have hfold : m.foldr (fun nv acc =>
      if nv.2.is_spot then (nv.1, targetNodeScore nv.2) :: acc else acc)
      [] = ([] : List (String × ℚ)) := by
    induction m with
    | nil => rfl
    | cons nv rest ih =>
      rw [List.foldr_cons,
        ih (fun y hy => h y (List.mem_cons_of_mem _ hy))]
      simp [h nv (List.mem_cons_self _ _)]
  rw [hfold]
  rfl

/-- C2 amended: a rebalance cycle mutates nothing — no pod changes its
resident node and no usage counter changes — when the cluster holds no
preemptible node at all (so the destination list is empty); but spare
capacity is never consulted when building that list, so a full Spot node
is still selected and receives pods (see the counterexample). -/
theorem rebalance_cluster_no_spot_no_mutation (now : ℚ)
    (s : RebalancerState) (hcons : usageConsistent s.nodes)
    (hnospot : ∀ nv ∈ s.nodes, nv.2.is_spot = false) :
    (rebalance_cluster now s).nodes = s.nodes := by
  unfold rebalance_cluster
  by_cases hg : now - s.last_rebalance_time < 30
  · rw [if_pos hg]
  · rw [if_neg hg]
    simp only [refreshAllUsage_eq_self s.nodes hcons,
      select_target_nodes_no_spot s.nodes hnospot, List.isEmpty_nil,
      Bool.or_true, if_true]

/-- A non-critical half-core pod on the durable node. -/
def podSmallC2 : Pod :=
  { name := "app-s", pod_namespace := "default", cpuVal := 1/2,
    cpuMillis := false, memGb := 1, criticalLabel := some "false",
    creation_timestamp := 0 }

/-- A pod that exactly fills the Spot node of `rebStC2`. -/
def podFillC2 : Pod :=
  { name := "app-fill", pod_namespace := "default", cpuVal := 1,
    cpuMillis := false, memGb := 4, criticalLabel := some "false",
    creation_timestamp := 0 }

/-- A cluster whose single Spot node is completely full (no spare cpu and
no spare memory) and whose durable node holds one movable pod. -/
def rebStC2 : RebalancerState :=
  { nodes :=
      [("aks-regular-1",
        { is_spot := false, allocCpu := 8, allocMemGb := 32,
          current_cpu_usage := 1/2, current_mem_usage_gb := 1,
          pods := [podSmallC2] }),
       ("aks-spot-1",
        { is_spot := true, allocCpu := 1, allocMemGb := 4,
          current_cpu_usage := 1, current_mem_usage_gb := 4,
          pods := [podFillC2] })]
    last_rebalance_time := 0 }

/-- Counterexample to C2: in `rebStC2` no preemptible node has any spare
capacity (the only Spot node is full on both resources), yet the
rebalance cycle still moves `app-s` onto that full Spot node, mutating
both pod placement and usage counters. -/
theorem rebalance_full_spot_still_moves :
    (∀ nv ∈ rebStC2.nodes, nv.2.is_spot = false ∨
      (nv.2.allocCpu ≤ nv.2.current_cpu_usage ∧
        nv.2.allocMemGb ≤ nv.2.current_mem_usage_gb)) ∧
    lookupNode "aks-spot-1" (rebalance_cluster 100 rebStC2).nodes =
      some { is_spot := true, allocCpu := 1, allocMemGb := 4,
             current_cpu_usage := 3/2, current_mem_usage_gb := 5,
             pods := [podFillC2, podSmallC2] } ∧
    lookupNode "aks-regular-1" (rebalance_cluster 100 rebStC2).nodes =
      some { is_spot := false, allocCpu := 8, allocMemGb := 32,
             current_cpu_usage := 0, current_mem_usage_gb := 0,
             pods := [] } := by
  refine ⟨?_, ?_, ?_⟩
  · intro nv hnv
    simp only [rebStC2, List.mem_cons, List.mem_singleton,
      List.not_mem_nil, or_false] at hnv
    rcases hnv with rfl | rfl
    · left; rfl
    · right; exact ⟨by norm_num, by norm_num⟩
  · norm_num [rebalance_cluster, rebStC2, refreshAllUsage, updateNodeUsage,
      podsCpuSum, podsMemSum, cpuRequestCores, find_pods_for_rebalance,
      lookupNode, filter_pods, calculate_pod_priority, sortScoreDesc,
      insertScoreDesc, select_target_nodes, targetNodeScore,
      execute_migrations, executeMigrationsGo, main_safe_evict_pod,
      removePodByName, appendPodToNode, modifyNode, containsNode,
      List.getD, min_def, podSmallC2, podFillC2]
    decide
  · norm_num [rebalance_cluster, rebStC2, refreshAllUsage, updateNodeUsage,
      podsCpuSum, podsMemSum, cpuRequestCores, find_pods_for_rebalance,
      lookupNode, filter_pods, calculate_pod_priority, sortScoreDesc,
      insertScoreDesc, select_target_nodes, targetNodeScore,
      execute_migrations, executeMigrationsGo, main_safe_evict_pod,
      removePodByName, appendPodToNode, modifyNode, containsNode,
      List.getD, min_def, podSmallC2, podFillC2]

/-- A one-node, spotless, consistent cluster for the C2 witness. -/
def rebStC2w : RebalancerState :=
  { nodes :=
      [("aks-regular-1",
        { is_spot := false, allocCpu := 8, allocMemGb := 32,
          current_cpu_usage := 1/2, current_mem_usage_gb := 1,
          pods := [podSmallC2] })]
    last_rebalance_time := 0 }

/-- Witness for the amended C2 on the spotless cluster `rebStC2w`. -/
theorem rebalance_cluster_no_spot_no_mutation_witness :
    usageConsistent rebStC2w.nodes ∧
    (∀ nv ∈ rebStC2w.nodes, nv.2.is_spot = false) ∧
    (rebalance_cluster 100 rebStC2w).nodes = rebStC2w.nodes := by
  have h1 : usageConsistent rebStC2w.nodes := by
    intro nv hnv
    simp only [rebStC2w, List.mem_singleton] at hnv
    subst hnv
    exact ⟨by norm_num [podsCpuSum, cpuRequestCores, podSmallC2],
           by norm_num [podsMemSum, podSmallC2]⟩
  have h2 : ∀ nv ∈ rebStC2w.nodes, nv.2.is_spot = false := by
    intro nv hnv
    simp only [rebStC2w, List.mem_singleton] at hnv
    subst hnv
    rfl
  exact ⟨h1, h2, rebalance_cluster_no_spot_no_mutation 100 rebStC2w h1 h2⟩

/-! ## Critical pods are never moved (C4) -/

/-- All pods resident anywhere in the cluster, in node order. -/
def allPods (s : ClusterState) : List Pod :=
  s.flatMap (fun nv => nv.2.pods)

/-- `p` is resident on the node named `nodeName`. -/
def podOnNode (p : Pod) (nodeName : String) (s : ClusterState) : Prop :=
  ∃ nv ∈ s, nv.1 = nodeName ∧ p ∈ nv.2.pods

/-- Usage refreshes do not move pods. -/
theorem podOnNode_refreshAllUsage (p : Pod) (nm : String)
    (s : ClusterState) :
    podOnNode p nm (refreshAllUsage s) ↔ podOnNode p nm s := by
  unfold podOnNode refreshAllUsage
  constructor
  · rintro ⟨nv, hnv, h1, h2⟩
    rcases List.mem_map.mp hnv with ⟨nv0, hnv0, rfl⟩
    exact ⟨nv0, hnv0, h1, h2⟩
  · rintro ⟨nv, hnv, h1, h2⟩
    exact ⟨(nv.1, updateNodeUsage nv.2), List.mem_map_of_mem _ hnv, h1, h2⟩

/-- Usage refreshes keep the resident-pod collection. -/
theorem allPods_refreshAllUsage (s : ClusterState) :
    allPods (refreshAllUsage s) = allPods s := by
  induction s with
  | nil => rfl
  | cons nv rest ih =>
    simp only [allPods, refreshAllUsage, List.map_cons, List.flatMap_cons]
      at ih ⊢
    rw [ih]
    rfl

/-- A resident pod belongs to the cluster's pod collection. -/
theorem podOnNode_mem_allPods (p : Pod) (nm : String) (s : ClusterState)
    (h : podOnNode p nm s) : p ∈ allPods s := by
  rcases h with ⟨nv, hnv, _, hp⟩
  exact List.mem_flatMap.mpr ⟨nv, hnv, hp⟩

/-- A successful dict lookup exhibits a member. -/
theorem lookupNode_mem (nm : String) (s : ClusterState) (info : NodeInfo)
    (h : lookupNode nm s = some info) : (nm, info) ∈ s := by
  induction s with
  | nil => cases h
  | cons nv rest ih =>
    rw [lookupNode] at h
    by_cases hc : nv.1 = nm
    · rw [if_pos hc] at h
      rcases Option.some.inj h with rfl
      rw [← hc]
      exact List.mem_cons_self _ _
    · rw [if_neg hc] at h
      exact List.mem_cons_of_mem _ (ih h)

/-- Rebalance candidates are resident pods carrying the `'false'`
criticality label. -/
theorem find_pods_mem (s : ClusterState) (q : Pod)
    (h : q ∈ find_pods_for_rebalance s) :
    q ∈ allPods s ∧ q.criticalLabel = some "false" := by
  unfold find_pods_for_rebalance at h
  rcases hl : lookupNode "aks-regular-1" s with _ | info
  · rw [hl] at h; cases h
  · rw [hl] at h
    have h1 := List.mem_filter.mp h
    refine ⟨?_, by simpa using h1.2⟩
    exact List.mem_flatMap.mpr
      ⟨("aks-regular-1", info), lookupNode_mem _ _ _ hl, h1.1⟩

/-- Sorting neither adds nor drops entries. -/
theorem mem_sortScoreDesc {α : Type} (a : α × ℚ) (l : List (α × ℚ)) :
    a ∈ sortScoreDesc l ↔ a ∈ l := by
  induction l with
  | nil => exact Iff.rfl
  | cons x xs ih =>
    have h1 : sortScoreDesc (x :: xs) = insertScoreDesc x (sortScoreDesc xs) :=
      rfl
    rw [h1, mem_insertScoreDesc, ih, List.mem_cons]

/-- Entries of the prioritised list of `_filter_pods` come from the input
and are non-critical. -/
theorem mem_prioritized (now : ℚ) (pods : List Pod) (pair : Pod × ℚ)
    (h : pair ∈ pods.foldr (fun p acc =>
        if p.criticalLabel = some "true" then acc
        else (p, calculate_pod_priority now p) :: acc) []) :
    pair.1 ∈ pods ∧ pair.1.criticalLabel ≠ some "true" := by
  induction pods with
  | nil => cases h
  | cons p rest ih =>
    rw [List.foldr_cons] at h
    by_cases hc : p.criticalLabel = some "true"
    · rw [if_pos hc] at h
      rcases ih h with ⟨h1, h2⟩
      exact ⟨List.mem_cons_of_mem _ h1, h2⟩
    · rw [if_neg hc] at h
      rcases List.mem_cons.mp h with rfl | h'
      · exact ⟨List.mem_cons_self _ _, hc⟩
      · rcases ih h' with ⟨h1, h2⟩
        exact ⟨List.mem_cons_of_mem _ h1, h2⟩

/-- `_filter_pods` only outputs non-critical members of its input. -/
theorem filter_pods_subset (now : ℚ) (maxp : ℕ) (pods : List Pod) :
    ∀ q ∈ filter_pods now maxp pods,
      q ∈ pods ∧ q.criticalLabel ≠ some "true" := by
  intro q hq
  unfold filter_pods at hq
  by_cases he : pods.isEmpty
  · rw [if_pos he] at hq; cases hq
  · rw [if_neg he] at hq
    rcases List.mem_map.mp hq with ⟨pair, hpair, rfl⟩
    exact mem_prioritized now pods pair
      ((mem_sortScoreDesc _ _).mp (List.take_subset _ _ hpair))

/-- Removing a differently-named pod never dislodges `p`. -/
theorem podOnNode_removePodByName (q : String) (p : Pod) (nm : String)
    (hpq : p.name ≠ q) :
    ∀ (s s' : ClusterState), removePodByName q s = some s' →
      podOnNode p nm s → podOnNode p nm s' := by
  intro s
  induction s with
  | nil => intro s' h; cases h
  | cons nv rest ih =>
    intro s' hrem hpod
    rw [removePodByName] at hrem
    rcases hpod with ⟨nw, hnw, he, hp⟩
    by_cases hc : nv.2.pods.any (·.name = q)
    · rw [if_pos hc] at hrem
      rcases Option.some.inj hrem with rfl
      rcases List.mem_cons.mp hnw with rfl | hnw'
      · refine ⟨(nw.1, updateNodeUsage
          { nw.2 with pods := nw.2.pods.filter (·.name ≠ q) }),
          List.mem_cons_self _ _, he, ?_⟩
        show p ∈ nw.2.pods.filter (fun x => x.name ≠ q)
        exact List.mem_filter.mpr ⟨hp, by simp [hpq]⟩
      · exact ⟨nw, List.mem_cons_of_mem _ hnw', he, hp⟩
    · rw [if_neg hc] at hrem
      rcases Option.map_eq_some'.mp hrem with ⟨s'', hs'', rfl⟩
      rcases List.mem_cons.mp hnw with rfl | hnw'
      · exact ⟨nw, List.mem_cons_self _ _, he, hp⟩
      · rcases ih s'' hs'' ⟨nw, hnw', he, hp⟩ with ⟨nx, hnx, hex, hpx⟩
        exact ⟨nx, List.mem_cons_of_mem _ hnx, hex, hpx⟩

/-- Dict updates that only grow a node's pod list keep `p` resident. -/
theorem podOnNode_modifyNode (p : Pod) (nm tn : String)
    (f : NodeInfo → NodeInfo)
    (hf : ∀ info, p ∈ info.pods → p ∈ (f info).pods) :
    ∀ s : ClusterState, podOnNode p nm s →
      podOnNode p nm (modifyNode tn f s) := by
  intro s
  induction s with
  | nil => intro h; exact h
  | cons nv rest ih =>
    intro hpod
    rw [modifyNode]
    rcases hpod with ⟨nw, hnw, he, hp⟩
    by_cases hc : nv.1 = tn
    · rw [if_pos hc]
      rcases List.mem_cons.mp hnw with rfl | hnw'
      · exact ⟨(nw.1, f nw.2), List.mem_cons_self _ _, he, hf _ hp⟩
      · exact ⟨nw, List.mem_cons_of_mem _ hnw', he, hp⟩
    · rw [if_neg hc]
      rcases List.mem_cons.mp hnw with rfl | hnw'
      · exact ⟨nw, List.mem_cons_self _ _, he, hp⟩
      · rcases ih ⟨nw, hnw', he, hp⟩ with ⟨nx, hnx, hex, hpx⟩
        exact ⟨nx, List.mem_cons_of_mem _ hnx, hex, hpx⟩

/-- Appending a pod somewhere keeps `p` resident where it was. -/
theorem podOnNode_appendPodToNode (p : Pod) (nm tn : String) (q : Pod)
    (s : ClusterState) (h : podOnNode p nm s) :
    podOnNode p nm (appendPodToNode tn q s) := by
  unfold appendPodToNode
  by_cases hc : containsNode tn s
  · rw [if_pos hc]
    refine podOnNode_modifyNode p nm tn _ ?_ s h
    intro info hp
    show p ∈ info.pods ++ [q]
    exact List.mem_append_left _ hp
  · rw [if_neg hc]; exact h

/-- The migration loop keeps `p` resident when every processed pod has a
different name. -/
theorem podOnNode_executeMigrationsGo (targets : List (String × ℚ))
    (p : Pod) (nm : String) :
    ∀ (pods : List Pod) (idx : ℕ) (s : ClusterState),
      (∀ q ∈ pods, q.name ≠ p.name) → podOnNode p nm s →
      podOnNode p nm (executeMigrationsGo targets pods idx s) := by
  intro pods
  induction pods with
  | nil => intro idx s _ h; exact h
  | cons q rest ih =>
    intro idx s hn h
    rw [executeMigrationsGo]
    by_cases hev : main_safe_evict_pod q.criticalLabel = false
    · rw [if_pos hev]
      exact ih _ _ (fun x hx => hn x (List.mem_cons_of_mem _ hx)) h
    · rw [if_neg hev]
      rcases hrem : removePodByName q.name s with _ | s'
      · exact ih _ _ (fun x hx => hn x (List.mem_cons_of_mem _ hx)) h
      · have h1 := podOnNode_removePodByName q.name p nm
          (Ne.symm (hn q (List.mem_cons_self _ _))) s s' hrem h
        exact ih _ _ (fun x hx => hn x (List.mem_cons_of_mem _ hx))
          (podOnNode_appendPodToNode p nm _ q s' h1)

/-- `_execute_migrations` keeps `p` resident when every pod of the batch
has a different name. -/
theorem podOnNode_execute_migrations (pods : List Pod)
    (targets : List (String × ℚ)) (s : ClusterState) (p : Pod)
    (nm : String) (hn : ∀ q ∈ pods, q.name ≠ p.name)
    (h : podOnNode p nm s) :
    podOnNode p nm (execute_migrations pods targets s) := by
  unfold execute_migrations
  by_cases he : targets.isEmpty
  · rw [if_pos he]; exact h
  · rw [if_neg he]
    exact podOnNode_executeMigrationsGo targets p nm pods 0 s hn h

/-- The node state a non-throttled cycle ends in. -/
theorem rebalance_cluster_nodes_eq (now : ℚ) (s : RebalancerState)
    (h : ¬ (now - s.last_rebalance_time < 30)) :
    (rebalance_cluster now s).nodes =
      refreshAllUsage
        (if (filter_pods now 10
              (find_pods_for_rebalance (refreshAllUsage s.nodes))).isEmpty
            || (select_target_nodes (refreshAllUsage s.nodes)).isEmpty
         then refreshAllUsage s.nodes
         else execute_migrations
           (filter_pods now 10
             (find_pods_for_rebalance (refreshAllUsage s.nodes)))
           (select_target_nodes (refreshAllUsage s.nodes))
           (refreshAllUsage s.nodes)) := by
  unfold rebalance_cluster
  rw [if_neg h]

/-- C4: pods whose criticality flag is set (`critical` label `'true'`)
are never migrated: `_filter_pods` never outputs a critical pod, the
eviction check denies them, and — provided pod names are unique across
the cluster, as Kubernetes guarantees — a rebalance cycle leaves every
critical pod on its original node. -/
theorem critical_pods_never_moved (now : ℚ) (s : RebalancerState)
    (p : Pod) (nm : String)
    (hnodup : ((allPods s.nodes).map (fun q => q.name)).Nodup)
    (hcrit : p.criticalLabel = some "true")
    (hres : podOnNode p nm s.nodes) :
    (∀ (pods : List Pod) (maxp : ℕ) (q : Pod),
        q ∈ filter_pods now maxp pods → q.criticalLabel ≠ some "true") ∧
    main_safe_evict_pod p.criticalLabel = false ∧
    podOnNode p nm (rebalance_cluster now s).nodes := by
  refine ⟨fun pods maxp q hq => (filter_pods_subset now maxp pods q hq).2,
    ?_, ?_⟩
  · rw [hcrit]; rfl
  · by_cases hg : now - s.last_rebalance_time < 30
    · have : rebalance_cluster now s = s := by
        unfold rebalance_cluster; rw [if_pos hg]
      rw [this]; exact hres
    · rw [rebalance_cluster_nodes_eq now s hg]
      apply (podOnNode_refreshAllUsage p nm _).mpr
      have hres1 : podOnNode p nm (refreshAllUsage s.nodes) :=
        (podOnNode_refreshAllUsage p nm s.nodes).mpr hres
      by_cases hc : (filter_pods now 10
            (find_pods_for_rebalance (refreshAllUsage s.nodes))).isEmpty
          || (select_target_nodes (refreshAllUsage s.nodes)).isEmpty
      · rw [if_pos hc]; exact hres1
      · rw [if_neg hc]
        refine podOnNode_execute_migrations _ _ _ p nm ?_ hres1
        intro q hq
        have hsub := filter_pods_subset now 10 _ q hq
        have hqm := find_pods_mem _ q hsub.1
        have hqmem : q ∈ allPods s.nodes := by
          rw [← allPods_refreshAllUsage]; exact hqm.1
        have hpmem : p ∈ allPods s.nodes :=
          podOnNode_mem_allPods p nm s.nodes hres
        intro heq
        have hqp : q = p := List.inj_on_of_nodup_map hnodup hqmem hpmem heq
        rw [hqp, hcrit] at hqm
        exact absurd hqm.2 (by simp)

/-- The critical pod of the C4 witness cluster. -/
def podCritC4 : Pod :=
  { name := "app-crit", pod_namespace := "default", cpuVal := 1,
    cpuMillis := false, memGb := 1, criticalLabel := some "true",
    creation_timestamp := 0 }

/-- The movable pod of the C4 witness cluster. -/
def podMoveC4 : Pod :=
  { name := "app-move", pod_namespace := "default", cpuVal := 1,
    cpuMillis := false, memGb := 1, criticalLabel := some "false",
    creation_timestamp := 0 }

/-- Witness cluster for C4: a critical and a movable pod on the durable
node, one empty Spot destination. -/
def rebStC4 : RebalancerState :=
  { nodes :=
      [("aks-regular-1",
        { is_spot := false, allocCpu := 8, allocMemGb := 32,
          current_cpu_usage := 2, current_mem_usage_gb := 2,
          pods := [podCritC4, podMoveC4] }),
       ("aks-spot-1",
        { is_spot := true, allocCpu := 4, allocMemGb := 16,
          current_cpu_usage := 0, current_mem_usage_gb := 0, pods := [] })]
    last_rebalance_time := 0 }

/-- Witness for C4: in `rebStC4` (unique pod names, critical pod
`app-crit` on the durable node) a full cycle leaves `app-crit` on its
node. -/
theorem critical_pods_never_moved_witness :
    ((allPods rebStC4.nodes).map (fun q => q.name)).Nodup ∧
    podCritC4.criticalLabel = some "true" ∧
    podOnNode podCritC4 "aks-regular-1" rebStC4.nodes ∧
    podOnNode podCritC4 "aks-regular-1"
      (rebalance_cluster 100 rebStC4).nodes := by
  have hnodup : ((allPods rebStC4.nodes).map (fun q => q.name)).Nodup := by
    simp [allPods, rebStC4, podCritC4, podMoveC4]
  have hres : podOnNode podCritC4 "aks-regular-1" rebStC4.nodes :=
    ⟨("aks-regular-1",
      { is_spot := false, allocCpu := 8, allocMemGb := 32,
        current_cpu_usage := 2, current_mem_usage_gb := 2,
        pods := [podCritC4, podMoveC4] }),
     List.mem_cons_self _ _, rfl, List.mem_cons_self _ _⟩
  exact ⟨hnodup, rfl, hres,
    (critical_pods_never_moved 100 rebStC4 podCritC4 "aks-regular-1"
      hnodup rfl hres).2.2⟩

/-! ## The cpu-unit slip in preemption fallback (C3) -/

/-- A pod requesting `cpu: '2'` — two cores, no `m` suffix — and 1 Gi. -/
def podBigC3 : Pod :=
  { name := "app-big3", pod_namespace := "default", cpuVal := 2,
    cpuMillis := false, memGb := 1, criticalLabel := some "false",
    creation_timestamp := 0 }

/-- A half-core pod already resident on the surviving Spot node. -/
def podHalfC3 : Pod :=
  { name := "app-half", pod_namespace := "default", cpuVal := 1/2,
    cpuMillis := false, memGb := 1, criticalLabel := some "false",
    creation_timestamp := 0 }

/-- The surviving Spot node: 1 allocatable core, 0.5 already committed. -/
def nodeBC3 : NodeInfo :=
  { is_spot := true, allocCpu := 1, allocMemGb := 4,
    current_cpu_usage := 1/2, current_mem_usage_gb := 1,
    pods := [podHalfC3] }

/-- Cluster about to lose Spot node `aks-spot-x`, which hosts
`podBigC3`. -/
def clusterC3 : ClusterState :=
  [("aks-spot-x",
    { is_spot := true, allocCpu := 4, allocMemGb := 16,
      current_cpu_usage := 2, current_mem_usage_gb := 1,
      pods := [podBigC3] }),
   ("aks-spot-b", nodeBC3)]

/-- C3 (code bug): the eligibility scan of
`simulate_spot_node_interruption` parses the pod's cpu request with an
unconditional `/1000`, so the 2-core pod `podBigC3` is deemed to fit the
surviving node `aks-spot-b` (0.5 + 0.002 ≤ 1) and is placed there, even
though under the declared-cores reading required by the claim it does not
fit (0.5 + 2 > 1); the node's own usage recomputation then records 2.5
committed cores against 1 allocatable. -/
theorem interruption_cpu_unit_bug :
    eligibleSpotNodes ["aks-spot-b"] podBigC3 [("aks-spot-b", nodeBC3)] =
      ["aks-spot-b"] ∧
    ¬ (nodeBC3.current_cpu_usage + cpuRequestCores podBigC3
        ≤ nodeBC3.allocCpu) ∧
    lookupNode "aks-spot-b"
        (simulate_spot_node_interruption (fun l => l.headD "")
          "aks-spot-x" clusterC3) =
      some { is_spot := true, allocCpu := 1, allocMemGb := 4,
             current_cpu_usage := 5/2, current_mem_usage_gb := 2,
             pods := [podHalfC3, podBigC3] } ∧
    ¬ (podsCpuSum [podHalfC3, podBigC3] ≤ nodeBC3.allocCpu) := by
  refine ⟨?_, ?_, ?_, ?_⟩
  · norm_num [eligibleSpotNodes, lookupNode, cpuRequestInterruption,
      nodeBC3, podBigC3, podHalfC3]
  · norm_num [cpuRequestCores, nodeBC3, podBigC3]
  · norm_num +decide [simulate_spot_node_interruption, reassignOrphanPod,
      eligibleSpotNodes, appendPodToNode, modifyNode, containsNode,
      lookupNode, updateNodeUsage, podsCpuSum, podsMemSum,
      cpuRequestCores, cpuRequestInterruption, clusterC3, nodeBC3,
      podBigC3, podHalfC3, List.headD]
  · norm_num [podsCpuSum, cpuRequestCores, nodeBC3, podBigC3, podHalfC3]

end Rebalancer
